import Mathlib

set_option maxRecDepth 20000

/- Verification of the WebSocket server in nodejs-raw-websocket/server.mjs.
   The definitions below are a shallow embedding of that file: Node buffers and
   socket reads become explicit list manipulation, JS numbers become Nat/Int with
   the precise JS overflow semantics where they matter (32-bit shift), and the
   side effects of a `readable` callback (socket writes, socket.end) become an
   explicit action list. -/

namespace WebSocket

/-- RFC 6455 magic GUID, constant `WEB_SOCKET_MAGIC_STRING` in server.mjs. -/
def WEB_SOCKET_MAGIC_STRING : String := "258EAFA5-E914-47DA-95CA-C5AB0DC85B11"

/-- Constant `SEVEN_BIT_INTIGER_MARKER` in server.mjs (sic). -/
def SEVEN_BIT_INTIGER_MARKER : Nat := 125

/-- Constant `SIXTEEN_BIT_INTIGER_MARKER` in server.mjs. -/
def SIXTEEN_BIT_INTIGER_MARKER : Nat := 126

/-- Constant `SIXTYFOUR_BIT_INTIGER_MARKER` in server.mjs. -/
def SIXTYFOUR_BIT_INTIGER_MARKER : Nat := 127

/-- Constant `FIRST_BIT` in server.mjs: the MASK / FIN bit mask 0b10000000. -/
def FIRST_BIT : Nat := 128

/-- Field `OPCODES.TEXT` in server.mjs. -/
def OPCODES_TEXT : Nat := 0x1

/-- Field `OPCODES.CLOSE` in server.mjs. -/
def OPCODES_CLOSE : Nat := 0x8

/-- Field `OPCODES.PING` in server.mjs. -/
def OPCODES_PING : Nat := 0x9

/-- Field `OPCODES.PONG` in server.mjs. -/
def OPCODES_PONG : Nat := 0xa

/-- UTF-8 bytes of a string, as `Buffer.from(string)` / `hash.update(string)`
    produce in Node (both default to utf8). -/
def strBytes (s : String) : List Nat :=
  (s.data.flatMap String.utf8EncodeChar).map (fun b => b.toNat)

/-- Model of Node's `stream.Readable.read(n)` on an open socket whose internal
    buffer holds `buf`: it returns `n` bytes (consuming them) when `0 < n` and
    at least `n` bytes are buffered, and returns `null` (consuming nothing)
    when `n ≤ 0` or fewer than `n` bytes are buffered. -/
def socketRead (n : Int) (buf : List Nat) : Option (List Nat × List Nat) :=
  if 0 < n ∧ n ≤ (buf.length : Int) then
    some (buf.take n.toNat, buf.drop n.toNat)
  else
    none

/-- The length-indicator extraction of server.mjs line 156:
    `const lengthIndicatorInBits = secondByte - FIRST_BIT`. JS subtraction can
    go negative, hence the `Int` result. -/
def lengthIndicatorInBits (secondByte : Nat) : Int :=
  (secondByte : Int) - (FIRST_BIT : Int)

/-- Model of `Buffer.prototype.readUInt16BE(0)` on a 2-byte buffer. -/
def readUInt16BE (b : List Nat) : Nat :=
  b.getD 0 0 * 256 + b.getD 1 0

/-- Model of `Buffer.prototype.readUInt32BE(0)` on a 4-byte buffer. -/
def readUInt32BE (b : List Nat) : Nat :=
  ((b.getD 0 0 * 256 + b.getD 1 0) * 256 + b.getD 2 0) * 256 + b.getD 3 0

/-- JS `ToInt32`: reduce a number to a signed 32-bit value. -/
def toInt32 (n : Nat) : Int :=
  if n % 4294967296 < 2147483648 then ((n % 4294967296 : Nat) : Int)
  else ((n % 4294967296 : Nat) : Int) - 4294967296

/-- JS left shift `a << b` for a nonnegative `a`: both operands are reduced to
    32 bits, the shift count is taken mod 32, and the result is a signed
    32-bit value. In particular `a << 32 = ToInt32(a)`. -/
def jsShl (a b : Nat) : Int :=
  toInt32 (a * 2 ^ (b % 32))

/-- The 64-bit length computation on server.mjs line 171:
    `messageLength = (upperBits << 32) + lowerBits`, with JS `<<` semantics. -/
def computeLength64 (upperBits lowerBits : Nat) : Int :=
  jsShl upperBits 32 + lowerBits

/-- The exact length computation a 64-bit big-endian extended length requires
    (spec section 4.2 step 2, indicator 127): `upper * 2^32 + lower`. -/
def specLength64 (upperBits lowerBits : Nat) : Int :=
  (upperBits : Int) * 4294967296 + lowerBits

/-- The XOR unmasking loop of server.mjs lines 187-190, starting at index `i`:
    `decoded[i] = encoded[i] ^ maskKey[i % 4]`. -/
def unmaskFrom (maskKey : List Nat) (i : Nat) : List Nat → List Nat
  | [] => []
  | b :: rest => (b ^^^ maskKey.getD (i % 4) 0) :: unmaskFrom maskKey (i + 1) rest

/-- Observable side effects of one `onSocketreadable` call: `socket.write`
    of a byte sequence, or `socket.end()`. -/
inductive Action where
  | write (bytes : List Nat)
  | endSocket
deriving DecidableEq, Repr

/-- Outcome of one `onSocketreadable` call.
    `noData`: the first `socket.read(1)` returned null and the handler returned;
    `crash`: the handler threw a TypeError by using a null read result
    (destructuring it, calling a Buffer method on it, or indexing it);
    `payloadFail`: the payload read returned null and the handler hit the
    "Failed to read message payload" early return;
    `frame fin opcode payload`: a frame was decoded (its unmasked payload shown)
    and dispatched. -/
inductive ProcResult where
  | noData
  | crash
  | payloadFail
  | frame (fin : Bool) (opcode : Nat) (payload : List Nat)
deriving DecidableEq, Repr

/-- Result of one `onSocketreadable` call: outcome, the socket buffer that
    remains unconsumed, and the emitted actions in order. -/
structure ProcOut where
  result : ProcResult
  buf : List Nat
  actions : List Action
deriving DecidableEq, Repr

/-- Model of `Buffer.prototype.writeUInt16BE`: the two big-endian bytes. -/
def uint16BE (n : Nat) : List Nat :=
  [n / 256 % 256, n % 256]

/-- Model of `Buffer.prototype.writeUInt32BE`: the four big-endian bytes. -/
def uint32BE (n : Nat) : List Nat :=
  [n / 16777216 % 256, n / 65536 % 256, n / 256 % 256, n % 256]

/-- Embedding of `sendMessage(message, socket, opcode)` in server.mjs
    (lines 221-274): chooses the payload length encoding, writes the header
    (first byte `0x80 | opcode`, second byte the length or marker, extended
    length bytes), then writes the payload. `none` models the
    `ERR_OUT_OF_RANGE` throw of `writeUInt32BE` when the length does not fit
    in 32 bits (the upper half written is always 0). -/
def sendMessage (message : List Nat) (opcode : Nat) : Option (List Action) :=
  let dataLength := message.length
  if dataLength ≤ SEVEN_BIT_INTIGER_MARKER then
    some [Action.write [0x80 ||| opcode, dataLength], Action.write message]
  else if dataLength ≤ 0xffff then
    some [Action.write ([0x80 ||| opcode, SIXTEEN_BIT_INTIGER_MARKER] ++ uint16BE dataLength),
          Action.write message]
  else if dataLength < 4294967296 then
    some [Action.write ([0x80 ||| opcode, SIXTYFOUR_BIT_INTIGER_MARKER] ++
            uint32BE 0 ++ uint32BE dataLength),
          Action.write message]
  else
    none

/-- Bytes the code prefixes to an echoed text payload:
    `const responseMessage = Echo: followed by the received text` (line 200).
    The byte-level model assumes the received payload is valid UTF-8, so that
    Node's decode-then-encode round trip is the identity on it; every concrete
    payload used below is ASCII. -/
def ECHO_HEAD : List Nat := strBytes "Echo: "

/-- Embedding of `sendPong(data, socket)` in server.mjs (lines 282-289):
    writes the 2-byte header then the payload. `Buffer.from([a, b])` keeps only
    the low 8 bits of each entry, hence the `% 256` on the length byte. -/
def sendPong (data : List Nat) : List Action :=
  [Action.write [0x80 ||| OPCODES_PONG, data.length % 256], Action.write data]

/-- Opcode dispatch of server.mjs lines 198-208: TEXT echoes via `sendMessage`,
    CLOSE calls `socket.end()`, PING answers via `sendPong`, anything else
    falls through with no action. -/
def dispatch (fin : Bool) (opcode : Nat) (decoded : List Nat) (buf : List Nat) : ProcOut :=
  if opcode = OPCODES_TEXT then
    match sendMessage (ECHO_HEAD ++ decoded) OPCODES_TEXT with
    | some acts => ⟨ProcResult.frame fin opcode decoded, buf, acts⟩
    | none => ⟨ProcResult.crash, buf, []⟩
  else if opcode = OPCODES_CLOSE then
    ⟨ProcResult.frame fin opcode decoded, buf, [Action.endSocket]⟩
  else if opcode = OPCODES_PING then
    ⟨ProcResult.frame fin opcode decoded, buf, sendPong decoded⟩
  else
    ⟨ProcResult.frame fin opcode decoded, buf, []⟩

/-- Embedding of server.mjs lines 174-208, after `messageLength` is known:
    read the 4-byte mask key (a null result is kept, the code does not check
    it), read the payload (null hits the "Failed to read message payload"
    return), unmask, and dispatch on the opcode. Indexing a null mask key in
    the unmask loop throws, which the model records as `crash`; the loop body
    runs whenever the payload read succeeded, since a successful `read(n)`
    needs `0 < n` and returns a nonempty buffer. -/
def finishFrame (isFinalFrame : Bool) (opcode : Nat) (messageLength : Int)
    (buf : List Nat) : ProcOut :=
  match socketRead 4 buf with
  | some (maskKey, buf5) =>
    match socketRead messageLength buf5 with
    | none => ⟨ProcResult.payloadFail, buf5, []⟩
    | some (encoded, buf6) =>
      dispatch isFinalFrame opcode (unmaskFrom maskKey 0 encoded) buf6
  | none =>
    match socketRead messageLength buf with
    | none => ⟨ProcResult.payloadFail, buf, []⟩
    | some (_, buf6) => ⟨ProcResult.crash, buf6, []⟩

/-- Embedding of `onSocketreadable(socket)` in server.mjs (lines 144-209), as a
    function of the socket's buffered bytes. A null `socket.read(1)` for the
    first byte returns quietly; a null result for any later header read crashes
    (the code destructures it or calls `readUInt16BE`/`readUInt32BE` on it).
    The final `else` of the length chain is unreachable for real bytes but the
    code would leave `messageLength = 0` there, which the model mirrors. -/
def onSocketreadable (buf0 : List Nat) : ProcOut :=
  match socketRead 1 buf0 with
  | none => ⟨ProcResult.noData, buf0, []⟩
  | some (fb, buf1) =>
    let firstByte := fb.headD 0
    let isFinalFrame : Bool := (firstByte &&& 0x80) != 0
    let opcode := firstByte &&& 0x0f
    match socketRead 1 buf1 with
    | none => ⟨ProcResult.crash, buf1, []⟩
    | some (sb, buf2) =>
      let secondByte := sb.headD 0
      let lengthIndicator : Int := lengthIndicatorInBits secondByte
      if lengthIndicator ≤ (SEVEN_BIT_INTIGER_MARKER : Int) then
        finishFrame isFinalFrame opcode lengthIndicator buf2
      else if lengthIndicator = (SIXTEEN_BIT_INTIGER_MARKER : Int) then
        match socketRead 2 buf2 with
        | none => ⟨ProcResult.crash, buf2, []⟩
        | some (lenBytes, buf3) =>
          finishFrame isFinalFrame opcode (readUInt16BE lenBytes) buf3
      else if lengthIndicator = (SIXTYFOUR_BIT_INTIGER_MARKER : Int) then
        match socketRead 4 buf2 with
        | none => ⟨ProcResult.crash, buf2, []⟩
        | some (upper, buf3) =>
          match socketRead 4 buf3 with
          | none => ⟨ProcResult.crash, buf3, []⟩
          | some (lower, buf4) =>
            finishFrame isFinalFrame opcode
              (computeLength64 (readUInt32BE upper) (readUInt32BE lower)) buf4
      else
        finishFrame isFinalFrame opcode 0 buf2

/-- Two successive `readable` callbacks: the first sees only the first `i`
    bytes of `frame`, the second sees whatever the first left unconsumed plus
    the rest of `frame`. -/
def feedTwoCalls (frame : List Nat) (i : Nat) : ProcOut × ProcOut :=
  let out1 := onSocketreadable (frame.take i)
  let out2 := onSocketreadable (out1.buf ++ frame.drop i)
  (out1, out2)

/-- The byte sequences passed to `socket.write` within an action list. -/
def writesOf (acts : List Action) : List (List Nat) :=
  acts.filterMap (fun a => match a with
    | Action.write w => some w
    | Action.endSocket => none)

/-- Left rotation of a 32-bit word by `n` bits. -/
def rotl (n x : Nat) : Nat :=
  ((x <<< n) % 4294967296) ||| (x >>> (32 - n))

/-- Big-endian bytes of `n`, `k` bytes wide. -/
def bytesBE : Nat → Nat → List Nat
  | 0, _ => []
  | k + 1, n => bytesBE k (n / 256) ++ [n % 256]

/-- Modelled from the spec: SHA-1 padding (FIPS 180-4), used by Node's
    `crypto.createHash("sha1")`, which is not part of this repository: append
    0x80, zero bytes up to 56 mod 64, then the bit length as 8 big-endian
    bytes. -/
def sha1Pad (msg : List Nat) : List Nat :=
  msg ++ [0x80] ++ List.replicate ((119 - msg.length % 64) % 64) 0
      ++ bytesBE 8 (msg.length * 8)

/-- Big-endian 4-byte groups of a byte list, as 32-bit words. -/
def bytesToWords : List Nat → List Nat
  | a :: b :: c :: d :: rest =>
    (((a * 256 + b) * 256 + c) * 256 + d) :: bytesToWords rest
  | _ => []

/-- Split a byte list into 64-byte blocks; the fuel argument (any bound on the
    number of blocks, the length itself below) keeps the recursion structural. -/
def chunksAux : Nat → List Nat → List (List Nat)
  | 0, _ => []
  | _, [] => []
  | fuel + 1, a :: as => (a :: as).take 64 :: chunksAux fuel ((a :: as).drop 64)

/-- Split a byte list into 64-byte blocks. -/
def chunks64 (l : List Nat) : List (List Nat) :=
  chunksAux l.length l

/-- SHA-1 round function selector. -/
def sha1F (t b c d : Nat) : Nat :=
  if t < 20 then (b &&& c) ||| ((b ^^^ 4294967295) &&& d)
  else if t < 40 then b ^^^ c ^^^ d
  else if t < 60 then (b &&& c) ||| (b &&& d) ||| (c &&& d)
  else b ^^^ c ^^^ d

/-- SHA-1 round constant selector. -/
def sha1K (t : Nat) : Nat :=
  if t < 20 then 0x5A827999
  else if t < 40 then 0x6ED9EBA1
  else if t < 60 then 0x8F1BBCDC
  else 0xCA62C1D6

/-- One step of the SHA-1 message schedule extension: append word
    `rotl 1 (w[i-3] xor w[i-8] xor w[i-14] xor w[i-16])` where `i` is the
    current length. -/
def sha1ExtendStep (w : List Nat) : List Nat :=
  let i := w.length
  w ++ [rotl 1 ((w.getD (i - 3) 0) ^^^ (w.getD (i - 8) 0) ^^^
                (w.getD (i - 14) 0) ^^^ (w.getD (i - 16) 0))]

/-- Extend 16 schedule words to 80. -/
def sha1Schedule (w16 : List Nat) : List Nat :=
  Nat.repeat sha1ExtendStep 64 w16

/-- One SHA-1 compression round over state `(a, b, c, d, e)` with round index
    and schedule word `(t, wt)`. -/
def sha1Round (st : Nat × Nat × Nat × Nat × Nat) (tw : Nat × Nat) :
    Nat × Nat × Nat × Nat × Nat :=
  let (a, b, c, d, e) := st
  let (t, wt) := tw
  ((rotl 5 a + sha1F t b c d + e + sha1K t + wt) % 4294967296, a, rotl 30 b, c, d)

/-- SHA-1 compression of one 64-byte block into the running hash state. -/
def sha1Compress (hs : Nat × Nat × Nat × Nat × Nat) (block : List Nat) :
    Nat × Nat × Nat × Nat × Nat :=
  let w := sha1Schedule (bytesToWords block)
  let (h0, h1, h2, h3, h4) := hs
  let (a, b, c, d, e) := w.enum.foldl sha1Round (h0, h1, h2, h3, h4)
  ((h0 + a) % 4294967296, (h1 + b) % 4294967296, (h2 + c) % 4294967296,
   (h3 + d) % 4294967296, (h4 + e) % 4294967296)

/-- Modelled from the spec: SHA-1 digest (20 bytes) of a byte sequence, the
    hash Node's `crypto` module computes in `createSocketAccept`; the crypto
    module is not part of this repository. -/
def sha1 (msg : List Nat) : List Nat :=
  let blocks := chunks64 (sha1Pad msg)
  let (h0, h1, h2, h3, h4) :=
    blocks.foldl sha1Compress (0x67452301, 0xEFCDAB89, 0x98BADCFE, 0x10325476, 0xC3D2E1F0)
  bytesBE 4 h0 ++ bytesBE 4 h1 ++ bytesBE 4 h2 ++ bytesBE 4 h3 ++ bytesBE 4 h4

/-- Standard base64 alphabet. -/
def b64Alphabet : String :=
  "ABCDEFGHIJKLMNOPQRSTUVWXYZabcdefghijklmnopqrstuvwxyz0123456789+/"

/-- Character `n` of the base64 alphabet. -/
def b64Char (n : Nat) : Char :=
  b64Alphabet.data.getD n 'A'

/-- Modelled from the spec: base64 character stream of a byte sequence
    (RFC 4648, with padding), as produced by Node's `digest("base64")`; the
    crypto module is not part of this repository. -/
def base64Chars : List Nat → List Char
  | a :: b :: c :: rest =>
    let n := (a % 256) * 65536 + (b % 256) * 256 + c % 256
    b64Char (n / 262144) :: b64Char (n / 4096 % 64) ::
      b64Char (n / 64 % 64) :: b64Char (n % 64) :: base64Chars rest
  | [a, b] =>
    let n := (a % 256) * 65536 + (b % 256) * 256
    [b64Char (n / 262144), b64Char (n / 4096 % 64), b64Char (n / 64 % 64), '=']
  | [a] =>
    let n := (a % 256) * 65536
    [b64Char (n / 262144), b64Char (n / 4096 % 64), '=', '=']
  | [] => []

/-- Base64 encoding of a byte sequence as a string. -/
def base64Encode (bs : List Nat) : String :=
  String.mk (base64Chars bs)

/-- Embedding of `createSocketAccept(clientKey)` in server.mjs (lines 328-332):
    SHA-1 of the client key concatenated with the magic GUID, base64-encoded. -/
def createSocketAccept (clientKey : String) : String :=
  base64Encode (sha1 (strBytes (clientKey ++ WEB_SOCKET_MAGIC_STRING)))

/-- Embedding of `prepareHandshakeHeader(clientKey)` in server.mjs
    (lines 303-313): the five lines joined with CRLF, the last element being
    a bare CRLF so the header block ends with a blank line. -/
def prepareHandshakeHeader (clientKey : String) : String :=
  String.intercalate "\r\n"
    ["HTTP/1.1 101 Switching Protocols",
     "Upgrade: websocket",
     "Connection: Upgrade",
     "Sec-WebSocket-Accept: " ++ createSocketAccept clientKey,
     "\r\n"]

/-- Modelled from the spec: the client-to-server encoding of a frame with the
    given FIN flag, opcode, 4-byte mask key and payload of at most 125 bytes
    (the masking the browser client applies before the bytes reach server.mjs;
    no client-side encoder is part of src/). The MASK bit of the second byte
    is set and the payload is XOR-masked, which `unmaskFrom` inverts. -/
def clientFrame (fin : Bool) (opcode : Nat) (mask payload : List Nat) : List Nat :=
  ((if fin then 0x80 else 0) ||| opcode) :: (FIRST_BIT + payload.length) ::
    (mask ++ unmaskFrom mask 0 payload)

/-- Modelled from the spec: parsing one server-to-client (unmasked) frame off
    the front of a byte sequence, per the RFC 6455 wire format in the spec's
    section 6 (no such parser is part of src/, which only decodes inbound
    frames). Returns `(fin, opcode, payload)` and the remaining bytes, or
    `none` when the bytes are short, the length encoding is reserved, or the
    MASK bit is set on a server frame. -/
def parseServerFrame (bytes : List Nat) :
    Option ((Bool × Nat × List Nat) × List Nat) :=
  match bytes with
  | b0 :: b1 :: rest =>
    let fin : Bool := (b0 &&& 0x80) != 0
    let opcode := b0 &&& 0x0f
    if b1 ≤ 125 then
      if rest.length < b1 then none
      else some ((fin, opcode, rest.take b1), rest.drop b1)
    else if b1 = 126 then
      match rest with
      | h :: l :: rest2 =>
        let len := h * 256 + l
        if rest2.length < len then none
        else some ((fin, opcode, rest2.take len), rest2.drop len)
      | _ => none
    else if b1 = 127 then
      match rest with
      | a :: b :: c :: d :: e :: f :: g :: h :: rest2 =>
        let len := ((((((a * 256 + b) * 256 + c) * 256 + d) * 256 + e) * 256 + f)
                      * 256 + g) * 256 + h
        if rest2.length < len then none
        else some ((fin, opcode, rest2.take len), rest2.drop len)
      | _ => none
    else none
  | _ => none

/- Helper lemmas about the embedding. -/

theorem socketRead_int_pos (n : Int) (buf : List Nat) (h1 : 0 < n)
    (h2 : n ≤ (buf.length : Int)) :
    socketRead n buf = some (buf.take n.toNat, buf.drop n.toNat) := by
  unfold socketRead
  rw [if_pos ⟨h1, h2⟩]

theorem socketRead_one (b : Nat) (rest : List Nat) :
    socketRead 1 (b :: rest) = some ([b], rest) := by
  rw [socketRead_int_pos 1 _ (by omega) (by simp)]
  simp

theorem socketRead_neg (n : Int) (buf : List Nat) (h : n ≤ 0) :
    socketRead n buf = none := by
  unfold socketRead
  rw [if_neg]
  intro hc
  omega

theorem unmaskFrom_length (mk : List Nat) (i : Nat) (l : List Nat) :
    (unmaskFrom mk i l).length = l.length := by
  induction l generalizing i with
  | nil => rfl
  | cons b rest ih => simp [unmaskFrom, ih]

theorem unmaskFrom_involutive (mk : List Nat) (i : Nat) (l : List Nat) :
    unmaskFrom mk i (unmaskFrom mk i l) = l := by
  induction l generalizing i with
  | nil => rfl
  | cons b rest ih =>
    simp only [unmaskFrom, ih]
    rw [Nat.xor_cancel_right]

theorem firstByte_fin (fin : Bool) (op : Nat) (h : op < 16) :
    ((((if fin then 0x80 else 0) ||| op) &&& 0x80) != 0) = fin := by
  cases fin <;> interval_cases op <;> decide

theorem firstByte_op (fin : Bool) (op : Nat) (h : op < 16) :
    (((if fin then 0x80 else 0) ||| op) &&& 0x0f) = op := by
  cases fin <;> interval_cases op <;> decide

/-- Central decode lemma: a well-formed masked client frame with a short
    (1 to 125 byte) payload, delivered in full, is decoded by
    `onSocketreadable` into exactly the `dispatch` of its unmasked payload,
    consuming the whole buffer. -/
theorem onSocketreadable_clientFrame (fin : Bool) (opcode : Nat)
    (mask payload : List Nat) (hm : mask.length = 4) (hop : opcode < 16)
    (hp0 : 0 < payload.length) (hp : payload.length ≤ 125) :
    onSocketreadable (clientFrame fin opcode mask payload) =
      dispatch fin opcode payload [] := by
  have hmplen : (unmaskFrom mask 0 payload).length = payload.length :=
    unmaskFrom_length mask 0 payload
  have hind : lengthIndicatorInBits (FIRST_BIT + payload.length) =
      (payload.length : Int) := by
    unfold lengthIndicatorInBits FIRST_BIT
    push_cast
    ring
  have hmask : socketRead 4 (mask ++ unmaskFrom mask 0 payload) =
      some (mask, unmaskFrom mask 0 payload) := by
    rw [socketRead_int_pos 4 _ (by omega) (by simp [hm, hmplen])]
    have h4 : Int.toNat 4 = 4 := rfl
    rw [h4, List.take_left' hm, List.drop_left' hm]
  have hpay : socketRead (payload.length : Int) (unmaskFrom mask 0 payload) =
      some (unmaskFrom mask 0 payload, []) := by
    rw [socketRead_int_pos _ _ (by exact_mod_cast hp0) (by simp [hmplen])]
    simp only [Int.toNat_natCast]
    rw [List.take_of_length_le hmplen.le, List.drop_of_length_le hmplen.le]
  unfold onSocketreadable clientFrame finishFrame
  simp only [socketRead_one, List.headD_cons]
  rw [firstByte_fin fin opcode hop, firstByte_op fin opcode hop, hind]
  rw [if_pos (show (payload.length : Int) ≤ (SEVEN_BIT_INTIGER_MARKER : Nat) by
    unfold SEVEN_BIT_INTIGER_MARKER
    exact_mod_cast hp)]
  simp only [hmask, hpay]
  rw [unmaskFrom_involutive]

theorem byte_and_128 : ∀ sb : Nat, sb < 256 → ((sb &&& 0x80 = 0) ↔ sb < 128) := by
  decide

/-- Claim C10: for every second frame byte `b`, the code's length-indicator
    extraction `b - FIRST_BIT` equals the 7-bit length field `b mod 128`
    exactly when the MASK bit of `b` is set, and with the MASK bit clear the
    extracted indicator is negative, hence lands in the `≤ 125` literal-length
    branch; so the extraction is correct precisely for masked frames. -/
theorem claim10_length_indicator_mask :
    ∀ b : Nat, b < 256 →
      (((lengthIndicatorInBits b = ((b % 128 : Nat) : Int)) ↔ (b &&& 0x80 ≠ 0)) ∧
        ((b &&& 0x80 = 0) →
          lengthIndicatorInBits b < 0 ∧
            lengthIndicatorInBits b ≤ ((SEVEN_BIT_INTIGER_MARKER : Nat) : Int))) := by
  decide

/-- Witness for claim C10 at the masked byte 131 (MASK set, 7-bit field 3). -/
theorem claim10_length_indicator_mask_witness :
    (131 : Nat) < 256 ∧
      (((lengthIndicatorInBits 131 = ((131 % 128 : Nat) : Int)) ↔
          ((131 : Nat) &&& 0x80 ≠ 0)) ∧
        (((131 : Nat) &&& 0x80 = 0) →
          lengthIndicatorInBits 131 < 0 ∧
            lengthIndicatorInBits 131 ≤ ((SEVEN_BIT_INTIGER_MARKER : Nat) : Int))) :=
  ⟨by decide, claim10_length_indicator_mask 131 (by decide)⟩

/-- Claim C2 is false of the code: the 64-bit extended length is computed as
    `(upperBits << 32) + lowerBits`, but a JS shift count is taken mod 32, so
    `1 << 32` is `1`, not `2^32`: for length bytes upper = 1, lower = 0 the
    code computes 1 where the unsigned 64-bit big-endian value is 2^32. -/
theorem claim2_length64_shift_bug :
    computeLength64 1 0 = 1 ∧ specLength64 1 0 = 4294967296 ∧
      computeLength64 1 0 ≠ specLength64 1 0 := by
  decide

/-- Claim C6: the accept token is base64(SHA-1(clientKey ++ GUID)), and the
    RFC 6455 sample key yields the documented token. -/
theorem claim6_accept_token :
    (∀ key : String,
        createSocketAccept key =
          base64Encode (sha1 (strBytes (key ++ WEB_SOCKET_MAGIC_STRING)))) ∧
      createSocketAccept "dGhlIHNhbXBsZSBub25jZQ==" = "s3pPLMBiTxaQ9kYGzzhZRbK+xOo=" :=
  ⟨fun _ => rfl, by decide⟩

/-- Claim C1 counterexample: splitting an 11-byte masked text frame (16-bit
    extended length, payload "abc") after its first byte breaks decoding: the
    whole frame in one call decodes to the text frame, but with the split the
    first call crashes on the null second-byte read after consuming and
    discarding the first byte (its retained buffer is empty, not the one-byte
    prefix), and the second call misparses the remainder and fails. -/
theorem claim1_streaming_counterexample :
    (onSocketreadable [0x81, 0xFE, 0, 3, 5, 6, 7, 8, 100, 100, 100]).result =
        ProcResult.frame true 1 [97, 98, 99] ∧
      (feedTwoCalls [0x81, 0xFE, 0, 3, 5, 6, 7, 8, 100, 100, 100] 1).1 =
        ⟨ProcResult.crash, [], []⟩ ∧
      (feedTwoCalls [0x81, 0xFE, 0, 3, 5, 6, 7, 8, 100, 100, 100] 1).2.result =
        ProcResult.payloadFail := by
  decide

/-- Claim C1 amended: only the trivial splits preserve decoding. For every
    interior split point `i + 1` (1 to 10) of the 11-byte frame above, neither
    of the two calls produces the frame: the partial prefix is consumed and
    lost rather than retained, so the streaming property fails at every
    interior split. -/
theorem claim1_interior_splits_fail :
    ∀ i : Nat, i < 10 →
      ((feedTwoCalls [0x81, 0xFE, 0, 3, 5, 6, 7, 8, 100, 100, 100] (i + 1)).1.result ≠
          ProcResult.frame true 1 [97, 98, 99] ∧
        (feedTwoCalls [0x81, 0xFE, 0, 3, 5, 6, 7, 8, 100, 100, 100] (i + 1)).2.result ≠
          ProcResult.frame true 1 [97, 98, 99]) := by
  decide

/-- Witness for the amended claim C1 at split point 5 (mid mask key). -/
theorem claim1_interior_splits_fail_witness :
    (4 : Nat) < 10 ∧
      ((feedTwoCalls [0x81, 0xFE, 0, 3, 5, 6, 7, 8, 100, 100, 100] (4 + 1)).1.result ≠
          ProcResult.frame true 1 [97, 98, 99] ∧
        (feedTwoCalls [0x81, 0xFE, 0, 3, 5, 6, 7, 8, 100, 100, 100] (4 + 1)).2.result ≠
          ProcResult.frame true 1 [97, 98, 99]) :=
  ⟨by decide, claim1_interior_splits_fail 4 (by decide)⟩

/-- Claim C3 counterexample: a masked Close frame with status code 1000
    (payload bytes 0x03 0xE8) is decoded, and the connection is released with
    `socket.end()` alone: the action list holds no write, so no outbound Close
    frame (echoing 1000 or otherwise) is sent before the transport goes. -/
theorem claim3_close_counterexample :
    onSocketreadable [0x88, 0x82, 0, 0, 0, 0, 0x03, 0xE8] =
        ⟨ProcResult.frame true 8 [3, 232], [], [Action.endSocket]⟩ ∧
      writesOf (onSocketreadable [0x88, 0x82, 0, 0, 0, 0, 0x03, 0xE8]).actions = [] := by
  decide

/-- Claim C4 counterexample: the unmasked text frame 81 05 "hello" is not
    rejected with any protocol error: the negative computed length makes the
    payload read fail, the handler returns silently with no action (no error
    close, no teardown), and four payload bytes were consumed as a phantom
    mask key, leaving the stream corrupted at byte 111. -/
theorem claim4_unmasked_counterexample :
    onSocketreadable [0x81, 0x05, 104, 101, 108, 108, 111] =
      ⟨ProcResult.payloadFail, [111], []⟩ := by
  decide

/-- Claim C5 counterexample: a masked frame with reserved opcode 0x3 and
    payload "a" is decoded and then silently ignored: no ProtocolError, no
    outbound Close with code 1002, no teardown — the action list is empty. -/
theorem claim5_reserved_opcode_counterexample :
    onSocketreadable [0x83, 0x81, 1, 2, 3, 4, 96] =
      ⟨ProcResult.frame true 3 [97], [], []⟩ := by
  decide

/-- Claim C7 counterexample: a decoded Ping with a 126-byte payload (16-bit
    extended length) is answered, but the bytes written are not a Pong frame
    with that payload: `sendPong` writes the raw length 126 into the 7-bit
    length byte, which is the 16-bit-extended-length marker, so the write
    parses as a Pong with EMPTY payload followed by 124 stray bytes. -/
theorem claim7_ping_counterexample :
    (onSocketreadable ([0x89, 0xFE, 0, 126, 0, 0, 0, 0] ++ List.replicate 126 0)).result =
        ProcResult.frame true 9 (List.replicate 126 0) ∧
      writesOf (onSocketreadable
          ([0x89, 0xFE, 0, 126, 0, 0, 0, 0] ++ List.replicate 126 0)).actions =
        [[0x8A, 126], List.replicate 126 0] ∧
      parseServerFrame ([0x8A, 126] ++ List.replicate 126 0) =
        some ((true, 10, []), List.replicate 124 0) := by
  decide

/-- Claim C3 amended: a decoded Close frame (any mask, any 1-125 byte payload,
    so any carried status code) makes the connection release the transport
    with `socket.end()` and nothing else: no outbound Close frame echoing the
    peer's code is written before teardown, and the handler keeps no state
    that would refuse later frames. -/
theorem claim3_close_releases_without_echo :
    ∀ mask payload : List Nat, mask.length = 4 → 0 < payload.length →
      payload.length ≤ 125 →
      onSocketreadable (clientFrame true OPCODES_CLOSE mask payload) =
        ⟨ProcResult.frame true OPCODES_CLOSE payload, [], [Action.endSocket]⟩ := by
  intro mask payload hm hp0 hp
  rw [onSocketreadable_clientFrame true OPCODES_CLOSE mask payload hm (by decide) hp0 hp]
  rfl

/-- Witness for the amended claim C3: the Close frame carrying code 1000. -/
theorem claim3_close_releases_without_echo_witness :
    ([0, 0, 0, 0] : List Nat).length = 4 ∧ 0 < ([3, 232] : List Nat).length ∧
      ([3, 232] : List Nat).length ≤ 125 ∧
      onSocketreadable (clientFrame true OPCODES_CLOSE [0, 0, 0, 0] [3, 232]) =
        ⟨ProcResult.frame true OPCODES_CLOSE [3, 232], [], [Action.endSocket]⟩ :=
  ⟨by decide, by decide, by decide,
    claim3_close_releases_without_echo [0, 0, 0, 0] [3, 232] (by decide) (by decide) (by decide)⟩

/-- Claim C4 amended: an inbound frame whose MASK bit is clear is dropped
    silently, not rejected with a ProtocolError: the computed length goes
    negative, the payload read fails, and the handler returns with no action
    whatsoever (no payload delivery, but also no error signal and no
    teardown). -/
theorem claim4_unmasked_silently_dropped :
    ∀ (fb sb : Nat) (rest : List Nat), sb < 256 → sb &&& 0x80 = 0 →
      (onSocketreadable (fb :: sb :: rest)).result = ProcResult.payloadFail ∧
        (onSocketreadable (fb :: sb :: rest)).actions = [] := by
  intro fb sb rest hsb hmask
  have hlt : sb < 128 := (byte_and_128 sb hsb).mp hmask
  unfold onSocketreadable
  simp only [socketRead_one, List.headD_cons]
  rw [if_pos (show lengthIndicatorInBits sb ≤ ((SEVEN_BIT_INTIGER_MARKER : Nat) : Int) by
    unfold lengthIndicatorInBits FIRST_BIT SEVEN_BIT_INTIGER_MARKER
    push_cast
    omega)]
  have hneg : lengthIndicatorInBits sb ≤ 0 := by
    unfold lengthIndicatorInBits FIRST_BIT
    push_cast
    omega
  unfold finishFrame
  cases h4 : socketRead 4 rest with
  | some p =>
    cases p with
    | mk mk4 buf5 =>
      simp only [h4, socketRead_neg _ _ hneg]
      exact ⟨trivial, trivial⟩
  | none =>
    simp only [h4, socketRead_neg _ _ hneg]
    exact ⟨trivial, trivial⟩

/-- Witness for the amended claim C4: the unmasked text frame 81 05 hello. -/
theorem claim4_unmasked_silently_dropped_witness :
    (5 : Nat) < 256 ∧ (5 : Nat) &&& 0x80 = 0 ∧
      ((onSocketreadable (0x81 :: 5 :: [104, 101, 108, 108, 111])).result =
          ProcResult.payloadFail ∧
        (onSocketreadable (0x81 :: 5 :: [104, 101, 108, 108, 111])).actions = []) :=
  ⟨by decide, by decide,
    claim4_unmasked_silently_dropped 0x81 5 [104, 101, 108, 108, 111] (by decide) (by decide)⟩

/-- Claim C5 amended: an inbound masked frame whose opcode is none of TEXT,
    CLOSE, PING (so also every reserved opcode such as 0x3) is decoded and
    then silently ignored: the handler emits no write and no teardown, and
    raises no error. -/
theorem claim5_reserved_opcode_ignored :
    ∀ (opcode : Nat) (mask payload : List Nat), opcode < 16 →
      opcode ≠ OPCODES_TEXT → opcode ≠ OPCODES_CLOSE → opcode ≠ OPCODES_PING →
      mask.length = 4 → 0 < payload.length → payload.length ≤ 125 →
      onSocketreadable (clientFrame true opcode mask payload) =
        ⟨ProcResult.frame true opcode payload, [], []⟩ := by
  intro op mask payload hop h1 h8 h9 hm hp0 hp
  rw [onSocketreadable_clientFrame true op mask payload hm hop hp0 hp]
  unfold dispatch
  rw [if_neg h1, if_neg h8, if_neg h9]

/-- Witness for the amended claim C5: opcode 0x3, payload "a". -/
theorem claim5_reserved_opcode_ignored_witness :
    (3 : Nat) < 16 ∧ (3 : Nat) ≠ OPCODES_TEXT ∧ (3 : Nat) ≠ OPCODES_CLOSE ∧
      (3 : Nat) ≠ OPCODES_PING ∧ ([1, 2, 3, 4] : List Nat).length = 4 ∧
      0 < ([97] : List Nat).length ∧ ([97] : List Nat).length ≤ 125 ∧
      onSocketreadable (clientFrame true 3 [1, 2, 3, 4] [97]) =
        ⟨ProcResult.frame true 3 [97], [], []⟩ :=
  ⟨by decide, by decide, by decide, by decide, by decide, by decide, by decide,
    claim5_reserved_opcode_ignored 3 [1, 2, 3, 4] [97] (by decide) (by decide)
      (by decide) (by decide) (by decide) (by decide) (by decide)⟩

/-- Claim C7 amended: for a decoded Ping whose payload has 1 to 125 bytes (the
    legal control-frame sizes), the connection emits exactly one Pong whose
    bytes parse back to a Pong frame with the identical payload, and the
    transport is not ended (state stays open). For longer decoded Pings the
    claim fails, see the counterexample. -/
theorem claim7_ping_pong_echo :
    ∀ mask payload : List Nat, mask.length = 4 → 0 < payload.length →
      payload.length ≤ 125 →
      (onSocketreadable (clientFrame true OPCODES_PING mask payload) =
          ⟨ProcResult.frame true OPCODES_PING payload, [],
            [Action.write [0x80 ||| OPCODES_PONG, payload.length], Action.write payload]⟩ ∧
        parseServerFrame ([0x80 ||| OPCODES_PONG, payload.length] ++ payload) =
          some ((true, OPCODES_PONG, payload), [])) := by
  intro mask payload hm hp0 hp
  constructor
  · rw [onSocketreadable_clientFrame true OPCODES_PING mask payload hm (by decide) hp0 hp]
    unfold dispatch
    rw [if_neg (by decide), if_neg (by decide), if_pos rfl]
    unfold sendPong
    rw [Nat.mod_eq_of_lt (by omega)]
  · show parseServerFrame ((0x80 ||| OPCODES_PONG) :: payload.length :: payload) = _
    simp only [parseServerFrame]
    rw [if_pos (show payload.length ≤ 125 from hp)]
    rw [if_neg (show ¬ payload.length < payload.length by omega)]
    rw [List.take_of_length_le (Nat.le_refl _), List.drop_of_length_le (Nat.le_refl _)]
    rfl

/-- Witness for the amended claim C7: ping with payload "abc". -/
theorem claim7_ping_pong_echo_witness :
    ([9, 9, 9, 9] : List Nat).length = 4 ∧ 0 < ([97, 98, 99] : List Nat).length ∧
      ([97, 98, 99] : List Nat).length ≤ 125 ∧
      (onSocketreadable (clientFrame true OPCODES_PING [9, 9, 9, 9] [97, 98, 99]) =
          ⟨ProcResult.frame true OPCODES_PING [97, 98, 99], [],
            [Action.write [0x80 ||| OPCODES_PONG, ([97, 98, 99] : List Nat).length],
              Action.write [97, 98, 99]]⟩ ∧
        parseServerFrame ([0x80 ||| OPCODES_PONG, ([97, 98, 99] : List Nat).length] ++
            [97, 98, 99]) =
          some ((true, OPCODES_PONG, [97, 98, 99]), [])) :=
  ⟨by decide, by decide, by decide,
    claim7_ping_pong_echo [9, 9, 9, 9] [97, 98, 99] (by decide) (by decide) (by decide)⟩

/-- Claim C8: for every outbound payload that fits a Node Buffer (length below
    2^32), the encoder picks the minimal length encoding: length ≤ 125 goes in
    the 7-bit field; 126-65535 uses the marker 126 and the 16-bit big-endian
    extension; longer payloads use the marker 127 and eight bytes written as
    two big-endian 32-bit halves (upper half 0), whose combined value
    upper * 2^32 + lower is the true payload length. -/
theorem claim8_minimal_length_encoding :
    ∀ (message : List Nat) (opcode : Nat), message.length < 4294967296 →
      ((message.length ≤ 125 →
          sendMessage message opcode =
            some [Action.write [0x80 ||| opcode, message.length], Action.write message]) ∧
        (126 ≤ message.length → message.length ≤ 65535 →
          sendMessage message opcode =
            some [Action.write [0x80 ||| opcode, 126, message.length / 256,
                message.length % 256],
              Action.write message]) ∧
        (65536 ≤ message.length →
          sendMessage message opcode =
              some [Action.write ([0x80 ||| opcode, 127] ++ uint32BE 0 ++
                  uint32BE message.length),
                Action.write message] ∧
            (readUInt32BE (uint32BE 0) : Int) * 4294967296 +
                (readUInt32BE (uint32BE message.length) : Int) =
              (message.length : Int))) := by
  intro message opcode hlt
  refine ⟨?_, ?_, ?_⟩
  · intro h125
    unfold sendMessage SEVEN_BIT_INTIGER_MARKER
    rw [if_pos h125]
  · intro h126 h65535
    unfold sendMessage SEVEN_BIT_INTIGER_MARKER SIXTEEN_BIT_INTIGER_MARKER
    rw [if_neg (by omega), if_pos (show message.length ≤ 0xffff from h65535)]
    unfold uint16BE
    have hb : message.length / 256 % 256 = message.length / 256 := by omega
    rw [hb]
    rfl
  · intro h65536
    constructor
    · unfold sendMessage SEVEN_BIT_INTIGER_MARKER SIXTEEN_BIT_INTIGER_MARKER
        SIXTYFOUR_BIT_INTIGER_MARKER
      rw [if_neg (by omega), if_neg (by omega), if_pos hlt]
    · unfold readUInt32BE uint32BE
      simp only [List.getD_cons_zero, List.getD_cons_succ]
      push_cast
      omega

/-- Witness for claim C8 at a 300-byte payload (16-bit length branch):
    the header is 82 7E 01 2C. -/
theorem claim8_minimal_length_encoding_witness :
    (List.replicate 300 7).length < 4294967296 ∧
      126 ≤ (List.replicate 300 7).length ∧ (List.replicate 300 7).length ≤ 65535 ∧
      sendMessage (List.replicate 300 7) 2 =
        some [Action.write [0x80 ||| 2, 126, (List.replicate 300 7).length / 256,
            (List.replicate 300 7).length % 256],
          Action.write (List.replicate 300 7)] :=
  ⟨by decide, by decide, by decide,
    (claim8_minimal_length_encoding (List.replicate 300 7) 2 (by decide)).2.1
      (by decide) (by decide)⟩

/-- Claim C9: for every client key, the handshake response is byte-exact: the
    status line, the two upgrade headers and the accept header joined by CRLF
    and terminated by the CRLF CRLF blank line. -/
theorem claim9_handshake_response :
    ∀ key : String,
      prepareHandshakeHeader key =
        "HTTP/1.1 101 Switching Protocols\r\nUpgrade: websocket\r\nConnection: Upgrade\r\nSec-WebSocket-Accept: "
          ++ createSocketAccept key ++ "\r\n\r\n" := by
  intro key
  show ((((((("HTTP/1.1 101 Switching Protocols" ++ "\r\n") ++ "Upgrade: websocket")
      ++ "\r\n") ++ "Connection: Upgrade") ++ "\r\n")
      ++ ("Sec-WebSocket-Accept: " ++ createSocketAccept key)) ++ "\r\n") ++ "\r\n" = _
  rw [← String.append_assoc _ "Sec-WebSocket-Accept: " (createSocketAccept key)]
  rw [show (((((("HTTP/1.1 101 Switching Protocols" ++ "\r\n") ++ "Upgrade: websocket")
      ++ "\r\n") ++ "Connection: Upgrade") ++ "\r\n") ++ "Sec-WebSocket-Accept: " : String) =
    "HTTP/1.1 101 Switching Protocols\r\nUpgrade: websocket\r\nConnection: Upgrade\r\nSec-WebSocket-Accept: "
    from by decide]
  rw [String.append_assoc _ "\r\n" "\r\n"]
  rw [show ("\r\n" ++ "\r\n" : String) = "\r\n\r\n" from by decide]

end WebSocket
